import Mathlib

/-!
Verification of the Freshservice Terraform provider (lcp-llp/terraform-provider-freshservice).

This file is a shallow embedding of the provider's Go source into Lean 4:

* strings are modelled as Lean `String` (lists of characters; the Go source
  only manipulates ASCII in the places the claims touch);
* the vendor's dynamically typed `type_fields` values (`interface{}` holding
  the results of `strconv` conversions) are modelled by the tagged union
  `TFValue`;
* Go `float64` values produced by `strconv.ParseFloat` are modelled exactly as
  decimal significand/exponent pairs (`DecFloat`, value `num / 10 ^ exp10`);
  the binary rounding of float64, hexadecimal float literals, underscore
  digit separators and the special values inf/nan are outside the fragment
  any claim touches and are not modelled;
* the HTTP layer is modelled by `DoRequestPair`, which mirrors the Go
  `Config.DoRequest` contract: it returns the pair (response, error) where
  exactly one component is present, matching the Go function which returns
  `(resp, nil)` or `(nil, err)`;
* each CRUD handler is modelled as a function from the transport outcome of
  its HTTP call to an explicit effect value (`ReadEffect`, `CreateEffect`),
  with the Terraform state writes (`d.Set`, `d.SetId`) made explicit.
-/

/-- Exact model of a finite Go float64 literal as parsed from a decimal
string: the rational value `num / 10 ^ exp10`. -/
structure DecFloat where
  num : Int
  exp10 : Nat
deriving DecidableEq, Repr

/-- Tagged union for the dynamically typed values the provider stores into
the vendor `type_fields` map (Go `map[string]interface{}`). -/
inductive TFValue where
  | int (n : Int)
  | float (f : DecFloat)
  | bool (b : Bool)
  | str (s : String)
deriving DecidableEq, Repr

/-- Rational value denoted by a `DecFloat`. -/
def DecFloat.toRat (f : DecFloat) : ℚ :=
  (f.num : ℚ) / 10 ^ f.exp10

/-- Numeric value of a list of ASCII digits, most significant first. -/
def digitsToNat (l : List Char) : Nat :=
  l.foldl (fun a c => a * 10 + (c.toNat - 48)) 0

/-- Model of Go `strconv.Atoi` (= `ParseInt(s, 10, 0)` with 64-bit int):
optional sign, one or more ASCII digits, value within int64 range. -/
def goAtoi (s : String) : Option Int :=
  let (neg, ds) :=
    match s.data with
    | '-' :: r => (true, r)
    | '+' :: r => (false, r)
    | r => (false, r)
  if ds.isEmpty || !ds.all Char.isDigit then none
  else
    let v : Int := (if neg then -1 else 1) * (digitsToNat ds : Int)
    if v < -(2 ^ 63) || 2 ^ 63 - 1 < v then none else some v

/-- Model of Go `strconv.ParseBool`: exactly the listed literals. -/
def goParseBool (s : String) : Option Bool :=
  match s with
  | "1" | "t" | "T" | "TRUE" | "true" | "True" => some true
  | "0" | "f" | "F" | "FALSE" | "false" | "False" => some false
  | _ => none

/-- Splits a character list at the first character satisfying `p`; the second
component is `none` when no such character occurs. -/
def splitAtFirst (p : Char → Bool) : List Char → List Char × Option (List Char)
  | [] => ([], none)
  | c :: rest =>
    if p c then ([], some rest)
    else
      let r := splitAtFirst p rest
      (c :: r.1, r.2)

/-- Model of Go `strconv.ParseFloat(s, 64)` on finite decimal literals:
optional sign, digits with at most one dot (at least one digit overall),
optional integer exponent introduced by e/E. -/
def goParseFloat (s : String) : Option DecFloat :=
  let (neg, cs) :=
    match s.data with
    | '-' :: r => (true, r)
    | '+' :: r => (false, r)
    | r => (false, r)
  let (mant, expPart) := splitAtFirst (fun c => c = 'e' || c = 'E') cs
  let (ip, fpOpt) := splitAtFirst (fun c => c = '.') mant
  let fp := fpOpt.getD []
  if ip.all Char.isDigit && fp.all Char.isDigit && (!ip.isEmpty || !fp.isEmpty) then
    let m : Int := (if neg then -1 else 1) * (digitsToNat (ip ++ fp) : Int)
    match expPart with
    | none => some ⟨m, fp.length⟩
    | some ec =>
      let (eneg, ed) :=
        match ec with
        | '-' :: r => (true, r)
        | '+' :: r => (false, r)
        | r => (false, r)
      if !ed.isEmpty && ed.all Char.isDigit then
        let e10 : Int := (if eneg then -1 else 1) * (digitsToNat ed : Int) - (fp.length : Int)
        if 0 ≤ e10 then some ⟨m * (10 : Int) ^ e10.toNat, 0⟩
        else some ⟨m, (-e10).toNat⟩
      else none
  else none

/-- Translation of `convertTypeFieldValue` (resource_asset.go): ordered
best-effort coercion of a configuration string, trying int, then float, then
bool, falling back to the string itself. -/
def convertTypeFieldValue (value : String) : TFValue :=
  match goAtoi value with
  | some intVal => TFValue.int intVal
  | none =>
    match goParseFloat value with
    | some floatVal => TFValue.float floatVal
    | none =>
      match goParseBool value with
      | some boolVal => TFValue.bool boolVal
      | none => TFValue.str value

/-- Model of Go `strings.HasSuffix s t` =
`len(s) >= len(t) && s[len(s)-len(t):] == t`. -/
def strHasSuffix (s t : String) : Bool :=
  decide (t.data.length ≤ s.data.length) &&
    (s.data.drop (s.data.length - t.data.length) == t.data)

/-- Model of Go `strings.TrimSuffix s t`: drops one trailing copy of `t`
when present, otherwise returns `s` unchanged. -/
def strTrimSuffix (s t : String) : String :=
  if strHasSuffix s t then String.mk (s.data.take (s.data.length - t.data.length)) else s

/-- Write-path key construction from `resourceAssetCreate`
(`fmt.Sprintf("%s_%d", key, assetTypeID)`). -/
def typeFieldKey (name : String) (assetTypeID : Int) : String :=
  name ++ "_" ++ toString assetTypeID

/-- Read-path key cleaning from `setAssetData`: strips one trailing
`_<assetTypeID>` suffix when present, else leaves the key unchanged. -/
def stripTypeFieldKey (key : String) (assetTypeID : Int) : String :=
  let sfx := "_" ++ toString assetTypeID
  if strHasSuffix key sfx then strTrimSuffix key sfx else key

/-- HTTP response as seen by the provider after transport: numeric status,
the Go `resp.Status` text, and the body. The body type parameter is the
result of JSON-decoding the body into the handler's response struct
(`Except` because decoding can fail). -/
structure HttpResponse (β : Type) where
  status : Nat
  statusText : String
  body : β
deriving DecidableEq

/-- Outcome of the underlying `http.Client.Do` call: transport failure or a
delivered response. -/
inductive TransportOutcome (β : Type) where
  | fail (msg : String)
  | resp (r : HttpResponse β)
deriving DecidableEq

/-- Translation of `Config.DoRequest` (client.go). The Go function returns a
`(response, error)` pair: `(nil, wrapped err)` on transport failure,
`(resp, nil)` on status 404, `(nil, status err)` on any other status >= 400,
and `(resp, nil)` otherwise. -/
def DoRequestPair {β : Type} (t : TransportOutcome β) :
    Option (HttpResponse β) × Option String :=
  match t with
  | .fail msg => (none, some ("failed to execute request: " ++ msg))
  | .resp r =>
    if r.status = 404 then (some r, none)
    else if 400 ≤ r.status then
      (none, some ("API request failed with status " ++ toString r.status ++ ": " ++ r.statusText))
    else (some r, none)

/-- Observable effect of a Read handler on the Terraform state: it either
clears the stored identifier (`d.SetId("")` and success), reports an error
diagnostic, or decodes the response body and writes it into state (keeping
the identifier). -/
inductive ReadEffect (α : Type) where
  | clearedId
  | errored (msg : String)
  | setData (a : α)
deriving DecidableEq

/-- Observable effect of a Create handler: error diagnostic, or success with
the identifier passed to `d.SetId` and the decoded asset written to state. -/
inductive CreateEffect (α : Type) where
  | errored (msg : String)
  | created (id : String) (a : α)
deriving DecidableEq

/-- Freshservice generic asset (`Asset` struct, resource_asset.go), restricted
to the fields the claims inspect; timestamps are RFC3339 strings. -/
structure Asset where
  id : Int
  displayID : Int
  name : String
  description : String
  assetTypeID : Int
  assetTag : String
  typeFields : List (String × TFValue)
deriving DecidableEq

/-- Freshservice AWS account asset (`AWSAccountAsset`,
resource_aws_account.go). -/
structure AWSAccountAsset where
  id : Int
  displayID : Int
  name : String
  description : String
  assetTypeID : Int
  assetTag : String
  createdAt : String
  updatedAt : String
  workspaceID : Int
  typeFields : List (String × TFValue)
deriving DecidableEq

/-- Freshservice Azure subscription asset (`AzureSubscriptionAsset`,
resource_azure_subscription.go). -/
structure AzureSubscriptionAsset where
  id : Int
  displayID : Int
  name : String
  description : String
  assetTypeID : Int
  assetTag : String
  createdAt : String
  updatedAt : String
  workspaceID : Int
  typeFields : List (String × TFValue)
deriving DecidableEq

/-- Freshservice GCP project asset (`GCPProjectAsset`,
resource_gcp_project.go). -/
structure GCPProjectAsset where
  id : Int
  displayID : Int
  name : String
  description : String
  assetTypeID : Int
  assetTag : String
  createdAt : String
  updatedAt : String
  workspaceID : Int
  typeFields : List (String × TFValue)
deriving DecidableEq

/-- Freshservice asset type (`AssetType` struct, resource_asset_type.go). -/
structure AssetType where
  id : Int
  name : String
  parentAssetTypeID : Option Int
  description : String
  visible : Bool
  createdAt : String
  updatedAt : String
deriving DecidableEq

/-- Translation of `resourceAssetRead` after the GET was issued
(resource_asset.go). This handler checks the 404 status on the response it
received from a successful `DoRequest` call, so the 404 path really clears
the identifier before any decoding. -/
def resourceAssetRead (t : TransportOutcome (Except String Asset)) : ReadEffect Asset :=
  match DoRequestPair t with
  | (_, some errMsg) => .errored ("Request failed for asset: " ++ errMsg)
  | (some r, none) =>
    if r.status = 404 then .clearedId
    else if r.status < 200 ∨ 300 ≤ r.status then
      .errored ("API request failed with status " ++ toString r.status)
    else
      match r.body with
      | .error e => .errored ("Failed to decode response: " ++ e)
      | .ok a => .setData a
  | (none, none) => .errored "nil response"

/-- Translation of `resourceAzureSubscriptionRead` after the GET was issued
(resource_azure_subscription.go); same correct shape as the generic asset
Read. -/
def resourceAzureSubscriptionRead (t : TransportOutcome (Except String AzureSubscriptionAsset)) :
    ReadEffect AzureSubscriptionAsset :=
  match DoRequestPair t with
  | (_, some errMsg) => .errored ("Request failed for asset: " ++ errMsg)
  | (some r, none) =>
    if r.status = 404 then .clearedId
    else if r.status < 200 ∨ 300 ≤ r.status then
      .errored ("API request failed with status " ++ toString r.status)
    else
      match r.body with
      | .error e => .errored ("Failed to decode response: " ++ e)
      | .ok a => .setData a
  | (none, none) => .errored "nil response"

/-- Translation of `resourceAWSAccountRead` after the GET was issued
(resource_aws_account.go). The Go code only tests for status 404 inside the
`err != nil` branch (`if resp != nil && resp.StatusCode == 404`); since
`DoRequest` never pairs a non-nil response with a non-nil error, that test is
mirrored here on the error branch, and the success branch decodes the body
whatever the status is. -/
def resourceAWSAccountRead (t : TransportOutcome (Except String AWSAccountAsset)) :
    ReadEffect AWSAccountAsset :=
  match DoRequestPair t with
  | (respOpt, some errMsg) =>
    match respOpt with
    | some r => if r.status = 404 then .clearedId else .errored errMsg
    | none => .errored errMsg
  | (some r, none) =>
    match r.body with
    | .error e => .errored ("Failed to decode response: " ++ e)
    | .ok a => .setData a
  | (none, none) => .errored "nil response"

/-- Translation of `resourceGCPProjectRead` after the GET was issued
(resource_gcp_project.go); same shape as the AWS account Read, with the 404
test inside the error branch. -/
def resourceGCPProjectRead (t : TransportOutcome (Except String GCPProjectAsset)) :
    ReadEffect GCPProjectAsset :=
  match DoRequestPair t with
  | (respOpt, some errMsg) =>
    match respOpt with
    | some r => if r.status = 404 then .clearedId else .errored errMsg
    | none => .errored errMsg
  | (some r, none) =>
    match r.body with
    | .error e => .errored ("Failed to decode response: " ++ e)
    | .ok a => .setData a
  | (none, none) => .errored "nil response"

/-- Translation of `resourceAssetTypeRead` after the GET was issued
(resource_asset_type.go); same shape as the AWS account Read, with the 404
test inside the error branch. -/
def resourceAssetTypeRead (t : TransportOutcome (Except String AssetType)) :
    ReadEffect AssetType :=
  match DoRequestPair t with
  | (respOpt, some errMsg) =>
    match respOpt with
    | some r => if r.status = 404 then .clearedId else .errored errMsg
    | none => .errored errMsg
  | (some r, none) =>
    match r.body with
    | .error e => .errored ("Failed to decode response: " ++ e)
    | .ok a => .setData a
  | (none, none) => .errored "nil response"

/-- Translation of the tail of `resourceAssetCreate` (resource_asset.go): on
a successful POST it decodes the response and passes
`strconv.Itoa(assetResp.Asset.DisplayID)` to `d.SetId`. -/
def resourceAssetCreate (t : TransportOutcome (Except String Asset)) : CreateEffect Asset :=
  match DoRequestPair t with
  | (_, some errMsg) => .errored errMsg
  | (some r, none) =>
    match r.body with
    | .error e => .errored ("Failed to decode response: " ++ e)
    | .ok a => .created (toString a.displayID) a
  | (none, none) => .errored "nil response"

/-- Translation of the tail of `resourceAWSAccountCreate`
(resource_aws_account.go): identifier from `DisplayID`. -/
def resourceAWSAccountCreate (t : TransportOutcome (Except String AWSAccountAsset)) :
    CreateEffect AWSAccountAsset :=
  match DoRequestPair t with
  | (_, some errMsg) => .errored errMsg
  | (some r, none) =>
    match r.body with
    | .error e => .errored ("Failed to decode response: " ++ e)
    | .ok a => .created (toString a.displayID) a
  | (none, none) => .errored "nil response"

/-- Translation of the tail of `resourceAzureSubscriptionCreate`
(resource_azure_subscription.go): identifier from `DisplayID`. -/
def resourceAzureSubscriptionCreate (t : TransportOutcome (Except String AzureSubscriptionAsset)) :
    CreateEffect AzureSubscriptionAsset :=
  match DoRequestPair t with
  | (_, some errMsg) => .errored errMsg
  | (some r, none) =>
    match r.body with
    | .error e => .errored ("Failed to decode response: " ++ e)
    | .ok a => .created (toString a.displayID) a
  | (none, none) => .errored "nil response"

/-- Translation of the tail of `resourceGCPProjectCreate`
(resource_gcp_project.go): this handler passes
`strconv.Itoa(assetResp.Asset.ID)` — the internal numeric ID, not the display
ID — to `d.SetId`. -/
def resourceGCPProjectCreate (t : TransportOutcome (Except String GCPProjectAsset)) :
    CreateEffect GCPProjectAsset :=
  match DoRequestPair t with
  | (_, some errMsg) => .errored errMsg
  | (some r, none) =>
    match r.body with
    | .error e => .errored ("Failed to decode response: " ++ e)
    | .ok a => .created (toString a.id) a
  | (none, none) => .errored "nil response"

/-- Configured attributes of the `freshservice_aws_account` resource
(its schema in resource_aws_account.go). -/
structure AWSAccountConfig where
  accountName : String
  accountID : String
  poNumber : String
  owner : String
  approver : String
  environment : String
  description : String
  assetTypeID : Int
deriving DecidableEq

/-- Translation of the `type_fields` construction in
`resourceAWSAccountCreate`: each non-empty attribute is stored under its
suffixed vendor key; `account_id` is first converted with `strconv.Atoi`
("to match Python script behavior") and stored as an integer when the
conversion succeeds, as a string otherwise. -/
def awsAccountCreateTypeFields (cfg : AWSAccountConfig) : List (String × TFValue) :=
  (if cfg.accountID ≠ "" then
    [("account_id_" ++ toString cfg.assetTypeID,
      match goAtoi cfg.accountID with
      | some n => TFValue.int n
      | none => TFValue.str cfg.accountID)]
  else []) ++
  (if cfg.poNumber ≠ "" then
    [("po_" ++ toString cfg.assetTypeID, TFValue.str cfg.poNumber)] else []) ++
  (if cfg.owner ≠ "" then
    [("owner_" ++ toString cfg.assetTypeID, TFValue.str cfg.owner)] else []) ++
  (if cfg.approver ≠ "" then
    [("approved_by_" ++ toString cfg.assetTypeID, TFValue.str cfg.approver)] else []) ++
  (if cfg.environment ≠ "" then
    [("environment_" ++ toString cfg.assetTypeID, TFValue.str cfg.environment)] else [])

/-- Lookup in the modelled `type_fields` map (Go `asset.TypeFields[key]`). -/
def lookupTF (tf : List (String × TFValue)) (k : String) : Option TFValue :=
  (tf.find? (fun p => p.1 == k)).map Prod.snd

/-- Terraform state of the `freshservice_aws_account` resource as written by
its Read path; `none` marks an attribute the state-setting function did not
write. -/
structure AWSAccountState where
  accountName : Option String
  description : Option String
  assetTypeID : Option Int
  displayID : Option Int
  assetTag : Option String
  createdAt : Option String
  updatedAt : Option String
  workspaceID : Option Int
  accountID : Option String
  poNumber : Option String
  owner : Option String
  approver : Option String
  environment : Option String
deriving DecidableEq

/-- AWS account state with no attribute written yet. -/
def awsStateEmpty : AWSAccountState :=
  ⟨none, none, none, none, none, none, none, none, none, none, none, none, none⟩

/-- Translation of `setAWSAccountAssetData` (resource_aws_account.go): writes
the scalar attributes unconditionally, then extracts each `type_fields`
entry only when the Go type assertion `.(string)` succeeds — an entry stored
as an integer is silently skipped. -/
def setAWSAccountAssetData (d : AWSAccountState) (asset : AWSAccountAsset) : AWSAccountState :=
  let d := { d with
    accountName := some asset.name
    description := some asset.description
    assetTypeID := some asset.assetTypeID
    displayID := some asset.displayID
    assetTag := some asset.assetTag
    createdAt := some asset.createdAt
    updatedAt := some asset.updatedAt
    workspaceID := some asset.workspaceID }
  let d :=
    match lookupTF asset.typeFields ("account_id_" ++ toString asset.assetTypeID) with
    | some (TFValue.str v) => { d with accountID := some v }
    | _ => d
  let d :=
    match lookupTF asset.typeFields ("po_" ++ toString asset.assetTypeID) with
    | some (TFValue.str v) => { d with poNumber := some v }
    | _ => d
  let d :=
    match lookupTF asset.typeFields ("owner_" ++ toString asset.assetTypeID) with
    | some (TFValue.str v) => { d with owner := some v }
    | _ => d
  let d :=
    match lookupTF asset.typeFields ("approved_by_" ++ toString asset.assetTypeID) with
    | some (TFValue.str v) => { d with approver := some v }
    | _ => d
  let d :=
    match lookupTF asset.typeFields ("environment_" ++ toString asset.assetTypeID) with
    | some (TFValue.str v) => { d with environment := some v }
    | _ => d
  d

/-- Single-quote and backslash characters, named to keep literals readable. -/
def aposChar : Char := Char.ofNat 39

/-- Backslash character. -/
def backslashChar : Char := Char.ofNat 92

/-- Translation of `escapeSearchValue` (datasource_asset.go):
`strings.ReplaceAll(value, "'", "\\'")`, replacing every single quote by a
backslash followed by the quote. -/
def escapeSearchValue (value : String) : String :=
  String.mk (value.data.foldr
    (fun c acc => if c = aposChar then backslashChar :: aposChar :: acc else c :: acc) [])

/-- The `queryParts` slice built by `buildSearchQuery` (datasource_asset.go):
one textual criterion per non-zero search attribute, in source order. -/
def searchParts (name : String) (displayID : Int) (assetTag : String) : List String :=
  (if name ≠ "" then ["name:'" ++ escapeSearchValue name ++ "'"] else []) ++
  (if displayID ≠ 0 then ["display_id:" ++ toString displayID] else []) ++
  (if assetTag ≠ "" then ["asset_tag:'" ++ escapeSearchValue assetTag ++ "'"] else [])

/-- Translation of the joining loop in `buildSearchQuery`: starts from the
empty string and prepends " AND " before every part except the first. -/
def joinAndGo (parts : List String) : String :=
  (parts.foldl (fun acc p => (acc.1 ++ (if acc.2 then " AND " else "") ++ p, true))
    (("", false) : String × Bool)).1

/-- Conjoining a list of criteria with " AND ", written the way the spec
describes it; used to state that the Go loop implements it. -/
def joinAndSpec : List String → String
  | [] => ""
  | [p] => p
  | p :: q :: rest => p ++ " AND " ++ joinAndSpec (q :: rest)

/-- Translation of `buildSearchQuery` (datasource_asset.go). With more than
one criterion the parts are joined with " AND " and wrapped in double quotes;
with one criterion that part is wrapped in double quotes; with no criterion
the Go code evaluates `queryParts[0]` on an empty slice, a runtime panic,
modelled as `none`. -/
def buildSearchQuery (name : String) (displayID : Int) (assetTag : String) : Option String :=
  let queryParts := searchParts name displayID assetTag
  if 1 < queryParts.length then
    some ("\"" ++ joinAndGo queryParts ++ "\"")
  else
    match queryParts with
    | [] => none
    | p :: _ => some ("\"" ++ p ++ "\"")

/-- Uppercase hexadecimal digit for a value below 16. -/
def hexDigitChar (n : Nat) : Char :=
  if n < 10 then Char.ofNat (48 + n) else Char.ofNat (55 + n)

/-- Percent- or plus-escaping of one character, per Go `net/url.QueryEscape`
(ASCII fragment: unreserved characters kept, space becomes a plus, the rest
percent-encoded). -/
def escapeQueryChar (c : Char) : List Char :=
  if c.isAlphanum || c = '-' || c = '_' || c = '.' || c = '~' then [c]
  else if c = ' ' then ['+']
  else ['%', hexDigitChar (c.toNat / 16 % 16), hexDigitChar (c.toNat % 16)]

/-- Model of Go `net/url.QueryEscape` on ASCII strings. -/
def queryEscape (s : String) : String :=
  String.mk (s.data.foldr (fun c acc => escapeQueryChar c ++ acc) [])

/-- Translation of `dataSourceAssetRead` (datasource_asset.go), with the
Terraform state writes projected onto the identifier it sets
(`d.SetId(strconv.Itoa(asset.DisplayID))`). The second component of the
result lists the endpoints of the HTTP requests the handler issued; the
transport argument gives the outcome of a GET against an endpoint. -/
def dataSourceAssetRead (name : String) (displayID : Int) (assetTag : String) (trashed : Bool)
    (transport : String → TransportOutcome (Except String (List Asset))) :
    Except String String × List String :=
  if name = "" ∧ displayID = 0 ∧ assetTag = "" then
    (.error "At least one of 'name', 'display_id', or 'asset_tag' must be provided", [])
  else
    match buildSearchQuery name displayID assetTag with
    | none => (.error "index out of range", [])
    | some searchQuery =>
      let endpoint := "/assets?search=" ++ queryEscape searchQuery ++
        (if trashed then "&trashed=true" else "")
      match DoRequestPair (transport endpoint) with
      | (_, some errMsg) => (.error errMsg, [endpoint])
      | (some r, none) =>
        match r.body with
        | .error e => (.error ("Failed to decode response: " ++ e), [endpoint])
        | .ok assets =>
          match assets with
          | [] => (.error "No assets found matching the search criteria", [endpoint])
          | [a] => (.ok (toString a.displayID), [endpoint])
          | _ :: _ :: _ =>
            (.error "Multiple assets found matching the search criteria. Please refine your search to return a single asset", [endpoint])
      | (none, none) => (.error "nil response", [endpoint])

/-- Identifiers for the handler values wired into the provider; the generic
asset and GCP project resource handlers exist in the source (modelled above
by `resourceAssetRead`, `resourceGCPProjectCreate`, ...) but the provider
map decides which of them a Terraform configuration can reach. -/
inductive ProviderHandler where
  | resourceAssetTypeH
  | resourceAzureSubscriptionH
  | resourceAWSAccountH
  | resourceAssetH
  | resourceGCPProjectH
  | dataSourceAssetH
  | dataSourceAssetTypeH
deriving DecidableEq

/-- Translation of the `ResourcesMap` of `Provider` (provider.go). -/
def providerResourcesMap : List (String × ProviderHandler) :=
  [("freshservice_asset_type", .resourceAssetTypeH),
   ("freshservice_azure_subscription", .resourceAzureSubscriptionH),
   ("freshservice_aws_account", .resourceAWSAccountH)]

/-- Translation of the `DataSourcesMap` of `Provider` (provider.go). -/
def providerDataSourcesMap : List (String × ProviderHandler) :=
  [("freshservice_asset", .dataSourceAssetH),
   ("freshservice_asset_type", .dataSourceAssetTypeH)]

/-- The parts slice is empty exactly when no search criterion is present. -/
lemma searchParts_eq_nil_iff (n : String) (d : Int) (a : String) :
    searchParts n d a = [] ↔ (n = "" ∧ d = 0 ∧ a = "") := by
  by_cases h1 : n = "" <;> by_cases h2 : d = 0 <;> by_cases h3 : a = "" <;>
    simp [searchParts, h1, h2, h3]

/-- Accumulated prefixes distribute over the spec-side join. -/
lemma joinAndSpec_cons_acc (a p : String) (r : List String) :
    joinAndSpec ((a ++ " AND " ++ p) :: r) = a ++ " AND " ++ joinAndSpec (p :: r) := by
  cases r with
  | nil => simp [joinAndSpec]
  | cons q r' => simp [joinAndSpec, String.append_assoc]

/-- The Go joining loop, started after its first iteration, computes the
spec-side join of the accumulator followed by the remaining parts. -/
lemma joinAndGo_aux (l : List String) (a : String) :
    (l.foldl (fun acc p => (acc.1 ++ (if acc.2 then " AND " else "") ++ p, true))
      ((a, true) : String × Bool)).1 = joinAndSpec (a :: l) := by
  induction l generalizing a with
  | nil => rfl
  | cons p r ih =>
    have step :
        (List.foldl (fun acc p => (acc.1 ++ (if acc.2 then " AND " else "") ++ p, true))
          ((a, true) : String × Bool) (p :: r)) =
        List.foldl (fun acc p => (acc.1 ++ (if acc.2 then " AND " else "") ++ p, true))
          ((a ++ " AND " ++ p, true) : String × Bool) r := by
      simp [List.foldl]
    rw [step, ih, joinAndSpec_cons_acc]
    rfl

/-- The Go joining loop implements the " AND " conjunction of the spec. -/
lemma joinAndGo_eq (l : List String) : joinAndGo l = joinAndSpec l := by
  cases l with
  | nil => rfl
  | cons p r =>
    show (List.foldl (fun acc q => (acc.1 ++ (if acc.2 then " AND " else "") ++ q, true))
      (("", false) : String × Bool) (p :: r)).1 = joinAndSpec (p :: r)
    have step :
        (List.foldl (fun acc q => (acc.1 ++ (if acc.2 then " AND " else "") ++ q, true))
          (("", false) : String × Bool) (p :: r)) =
        List.foldl (fun acc q => (acc.1 ++ (if acc.2 then " AND " else "") ++ q, true))
          ((p, true) : String × Bool) r := by
      simp [List.foldl]
    rw [step, joinAndGo_aux]

/-- Suffixing a logical name and then stripping the same asset-type suffix
recovers the name. -/
lemma strip_key_roundtrip (n : String) (t : Int) :
    stripTypeFieldKey (typeFieldKey n t) t = n := by
  have hdata : (typeFieldKey n t).data = n.data ++ ("_" ++ toString t).data := by
    simp [typeFieldKey, String.data_append]
  have hsuf : strHasSuffix (typeFieldKey n t) ("_" ++ toString t) = true := by
    simp [strHasSuffix, hdata, List.length_append, Nat.add_sub_cancel, List.drop_left]
  simp only [stripTypeFieldKey, strTrimSuffix, hsuf, if_true]
  rw [hdata]
  simp only [List.length_append, Nat.add_sub_cancel, List.take_left]

/-- C1: claimed — every resource kind's Read clears the stored identifier and
returns success, without decoding a body, when the GET comes back 404. What
the code does at that input: the generic Asset and Azure Subscription Reads
do clear the identifier, but the AWS Account, GCP Project and Asset Type
Reads test for 404 only inside the `err != nil` branch, which `DoRequest`
never enters on a 404 (it returns the 404 response with a nil error), so
those three handlers decode the 404 body as a normal response and leave the
identifier in place. -/
theorem read404HandlingEval :
    resourceAWSAccountRead (.resp ⟨404, "404 Not Found",
        .ok ⟨0, 0, "", "", 0, "", "", "", 0, []⟩⟩) =
      .setData ⟨0, 0, "", "", 0, "", "", "", 0, []⟩ ∧
    resourceGCPProjectRead (.resp ⟨404, "404 Not Found",
        .ok ⟨0, 0, "", "", 0, "", "", "", 0, []⟩⟩) =
      .setData ⟨0, 0, "", "", 0, "", "", "", 0, []⟩ ∧
    resourceAssetTypeRead (.resp ⟨404, "404 Not Found",
        .ok ⟨0, "", none, "", false, "", ""⟩⟩) =
      .setData ⟨0, "", none, "", false, "", ""⟩ ∧
    resourceAssetRead (.resp ⟨404, "404 Not Found",
        .ok ⟨0, 0, "", "", 0, "", []⟩⟩) = .clearedId ∧
    resourceAzureSubscriptionRead (.resp ⟨404, "404 Not Found",
        .ok ⟨0, 0, "", "", 0, "", "", "", 0, []⟩⟩) = .clearedId := by
  refine ⟨?_, ?_, ?_, ?_, ?_⟩ <;> decide

/-- C2: claimed — Create followed by the Read state-setting function returns
the configured field values; in particular a digits-only AWS `account_id` is
returned unchanged. What the code does: `resourceAWSAccountCreate` stores a
digits-only `account_id` into `type_fields` as an integer (`strconv.Atoi`
succeeds), while `setAWSAccountAssetData` extracts `account_id` only through
a `.(string)` type assertion, so the integer entry is skipped and the Read
state-setting function never writes `account_id` back (here: `none`), while
the string-typed `po_number` entry round-trips. -/
theorem awsAccountRoundTripEval :
    let cfg : AWSAccountConfig :=
      ⟨"prod account", "123456789012", "PO-1", "", "", "", "", 56000947175⟩
    let created : AWSAccountAsset :=
      ⟨3, 7, cfg.accountName, cfg.description, cfg.assetTypeID, "",
        "2024-01-01T00:00:00Z", "2024-01-01T00:00:00Z", 1,
        awsAccountCreateTypeFields cfg⟩
    awsAccountCreateTypeFields cfg =
      [("account_id_56000947175", TFValue.int 123456789012),
       ("po_56000947175", TFValue.str "PO-1")] ∧
    (setAWSAccountAssetData awsStateEmpty created).poNumber = some "PO-1" ∧
    (setAWSAccountAssetData awsStateEmpty created).accountID = none := by
  refine ⟨?_, ?_, ?_⟩ <;> decide

/-- C3: DoRequest returns the response with a nil error when the status is
404 or below 400; for any other status of 400 or above it returns a nil
response together with an error embedding the numeric status code; and on
transport failure it returns a nil response and a wrapped error. -/
theorem doRequestErrorPolicy :
    (∀ (β : Type) (r : HttpResponse β), r.status = 404 ∨ r.status < 400 →
      DoRequestPair (TransportOutcome.resp r) = (some r, none)) ∧
    (∀ (β : Type) (r : HttpResponse β), 400 ≤ r.status → r.status ≠ 404 →
      DoRequestPair (TransportOutcome.resp r) =
        (none, some ("API request failed with status " ++ toString r.status ++ ": " ++
          r.statusText))) ∧
    (∀ (β : Type) (m : String),
      DoRequestPair (TransportOutcome.fail m : TransportOutcome β) =
        (none, some ("failed to execute request: " ++ m))) := by
  refine ⟨?_, ?_, ?_⟩
  · intro β r h
    rcases h with h | h
    · simp [DoRequestPair, h]
    · have h4 : r.status ≠ 404 := by omega
      have h4' : ¬ 400 ≤ r.status := by omega
      simp [DoRequestPair, h4, h4']
  · intro β r h1 h2
    simp [DoRequestPair, h2, h1]
  · intro β m
    rfl

/-- Witness for `doRequestErrorPolicy` at a concrete 500 response. -/
theorem doRequestErrorPolicyWitness :
    (400 ≤ 500 ∧ (500 : Nat) ≠ 404) ∧
    DoRequestPair (TransportOutcome.resp
        (⟨500, "500 Internal Server Error", ()⟩ : HttpResponse Unit)) =
      (none, some ("API request failed with status " ++ toString (500 : Nat) ++ ": " ++
        "500 Internal Server Error")) :=
  ⟨⟨by decide, by decide⟩,
    doRequestErrorPolicy.2.1 Unit ⟨500, "500 Internal Server Error", ()⟩
      (by decide) (by decide)⟩

/-- C4: claimed — the generic Asset Create sets the identifier from the
internal numeric ID in one code path, and the later kinds uniformly use the
display ID. What the code does: the GCP Project Create (a later kind) sets
the identifier from the internal ID `11`, not the display ID `22`, while the
generic Asset Create sets it from the display ID. -/
theorem createIdCounterexample :
    resourceGCPProjectCreate (.resp ⟨201, "201 Created",
        .ok ⟨11, 22, "proj", "", 56000979438, "", "", "", 0, []⟩⟩) =
      .created "11" ⟨11, 22, "proj", "", 56000979438, "", "", "", 0, []⟩ ∧
    ("11" : String) ≠ "22" ∧
    resourceAssetCreate (.resp ⟨201, "201 Created",
        .ok ⟨11, 22, "a", "", 25, "", []⟩⟩) =
      .created "22" ⟨11, 22, "a", "", 25, "", []⟩ := by
  refine ⟨?_, ?_, ?_⟩ <;> decide

/-- C4 (amended): on a successful creation response, the generic Asset, AWS
Account and Azure Subscription Creates set the host identifier from the
response's display ID, while the GCP Project Create sets it from the
internal numeric ID. -/
theorem createIdConvention :
    (∀ (a : Asset), resourceAssetCreate (.resp ⟨201, "201 Created", .ok a⟩) =
      .created (toString a.displayID) a) ∧
    (∀ (w : AWSAccountAsset), resourceAWSAccountCreate (.resp ⟨201, "201 Created", .ok w⟩) =
      .created (toString w.displayID) w) ∧
    (∀ (z : AzureSubscriptionAsset),
      resourceAzureSubscriptionCreate (.resp ⟨201, "201 Created", .ok z⟩) =
        .created (toString z.displayID) z) ∧
    (∀ (g : GCPProjectAsset), resourceGCPProjectCreate (.resp ⟨201, "201 Created", .ok g⟩) =
      .created (toString g.id) g) := by
  refine ⟨?_, ?_, ?_, ?_⟩ <;> intro x <;> rfl

/-- C5: the type-coercion function tries an integer parse first, then a
float parse, then a boolean parse, and otherwise returns the string
unchanged; "42" yields integer 42, "3.14" yields the float with decimal
value 314/10^2 = 3.14, "true" yields boolean true and "hello" stays a
string. -/
theorem convertTypeFieldValueSpec :
    (∀ s n, goAtoi s = some n → convertTypeFieldValue s = TFValue.int n) ∧
    (∀ s f, goAtoi s = none → goParseFloat s = some f →
      convertTypeFieldValue s = TFValue.float f) ∧
    (∀ s b, goAtoi s = none → goParseFloat s = none → goParseBool s = some b →
      convertTypeFieldValue s = TFValue.bool b) ∧
    (∀ s, goAtoi s = none → goParseFloat s = none → goParseBool s = none →
      convertTypeFieldValue s = TFValue.str s) ∧
    convertTypeFieldValue "42" = TFValue.int 42 ∧
    convertTypeFieldValue "3.14" = TFValue.float ⟨314, 2⟩ ∧
    DecFloat.toRat ⟨314, 2⟩ = 3.14 ∧
    convertTypeFieldValue "true" = TFValue.bool true ∧
    convertTypeFieldValue "hello" = TFValue.str "hello" := by
  refine ⟨?_, ?_, ?_, ?_, by decide, by decide, ?_, by decide, by decide⟩
  · intro s n h; simp [convertTypeFieldValue, h]
  · intro s f h1 h2; simp [convertTypeFieldValue, h1, h2]
  · intro s b h1 h2 h3; simp [convertTypeFieldValue, h1, h2, h3]
  · intro s h1 h2 h3; simp [convertTypeFieldValue, h1, h2, h3]
  · norm_num [DecFloat.toRat]

/-- Witness for `convertTypeFieldValueSpec` applying the integer-first branch
at the input "7". -/
theorem convertTypeFieldValueSpecWitness :
    goAtoi "7" = some 7 ∧ convertTypeFieldValue "7" = TFValue.int 7 :=
  ⟨by decide, convertTypeFieldValueSpec.1 "7" 7 (by decide)⟩

/-- C6: the write path produces the vendor key `name_t`, the read path strips
a trailing `_t` suffix and leaves a key without it unchanged, and stripping
after suffixing recovers the logical name for every name and asset-type
ID. -/
theorem typeFieldCodecRoundTrip :
    typeFieldKey "owner" 123 = "owner_123" ∧
    stripTypeFieldKey "owner_123" 123 = "owner" ∧
    (∀ (n : String) (t : Int), stripTypeFieldKey (typeFieldKey n t) t = n) ∧
    (∀ (k : String) (t : Int), strHasSuffix k ("_" ++ toString t) = false →
      stripTypeFieldKey k t = k) := by
  refine ⟨by decide, by decide, strip_key_roundtrip, ?_⟩
  intro k t h
  simp [stripTypeFieldKey, h]

/-- Witness for `typeFieldCodecRoundTrip` on a key without the suffix. -/
theorem typeFieldCodecRoundTripWitness :
    strHasSuffix "owner" ("_" ++ toString (5 : Int)) = false ∧
    stripTypeFieldKey "owner" 5 = "owner" :=
  ⟨by decide, typeFieldCodecRoundTrip.2.2.2 "owner" 5 (by decide)⟩

/-- C7: claimed — for every combination of search criteria the builder
returns a quoted conjunction. What the code does with no criterion present:
`buildSearchQuery` evaluates `queryParts[0]` on an empty slice, a runtime
panic (modelled `none`), so no string is returned at that input. -/
theorem buildSearchQueryEmptyCounterexample :
    buildSearchQuery "" 0 "" = none := by
  decide

/-- C7 (amended): for every combination with at least one criterion present,
buildSearchQuery returns a single double-quoted string conjoining the
present criteria with " AND "; name="Dell laptop" alone yields
"name:'Dell laptop'" inside double quotes, name="X" with display_id=5 yields
"name:'X' AND display_id:5" as one quoted string, and embedded single quotes
are backslash-escaped. -/
theorem buildSearchQuerySpec :
    (∀ (name : String) (displayID : Int) (assetTag : String),
      ¬(name = "" ∧ displayID = 0 ∧ assetTag = "") →
      buildSearchQuery name displayID assetTag =
        some ("\"" ++ joinAndSpec (searchParts name displayID assetTag) ++ "\"")) ∧
    buildSearchQuery "Dell laptop" 0 "" = some "\"name:'Dell laptop'\"" ∧
    buildSearchQuery "X" 5 "" = some "\"name:'X' AND display_id:5\"" ∧
    buildSearchQuery "Dell's" 0 "" = some "\"name:'Dell\\'s'\"" ∧
    escapeSearchValue "Dell's" = "Dell\\'s" := by
  refine ⟨?_, by decide, by decide, by decide, by decide⟩
  intro name displayID assetTag h
  have hne : searchParts name displayID assetTag ≠ [] := by
    intro hnil
    exact h ((searchParts_eq_nil_iff name displayID assetTag).mp hnil)
  cases hp : searchParts name displayID assetTag with
  | nil => exact absurd hp hne
  | cons p r =>
    cases r with
    | nil =>
      simp [buildSearchQuery, hp, joinAndSpec]
    | cons q r' =>
      have hl : 1 < (p :: q :: r').length := by
        simp [List.length_cons]
      simp [buildSearchQuery, hp, hl, joinAndGo_eq]

/-- Witness for `buildSearchQuerySpec` with a single present criterion. -/
theorem buildSearchQuerySpecWitness :
    ¬(("Dell laptop" : String) = "" ∧ (0 : Int) = 0 ∧ ("" : String) = "") ∧
    buildSearchQuery "Dell laptop" 0 "" =
      some ("\"" ++ joinAndSpec (searchParts "Dell laptop" 0 "") ++ "\"") :=
  ⟨by decide, buildSearchQuerySpec.1 "Dell laptop" 0 "" (by decide)⟩

/-- C8: when name is empty, display_id is 0 and asset_tag is empty, the asset
data-source Read returns the local validation error and issues no HTTP
request (the request list is empty), for every trashed flag and every
transport behaviour. -/
theorem dataSourceAssetReadEmptyCriteria :
    ∀ (trashed : Bool) (transport : String → TransportOutcome (Except String (List Asset))),
      dataSourceAssetRead "" 0 "" trashed transport =
        (.error "At least one of 'name', 'display_id', or 'asset_tag' must be provided", []) := by
  intro trashed transport
  rfl

/-- C9: on a decoded search response with zero assets the asset data-source
Read errors, with two or more assets it errors, and with exactly one asset
it succeeds and sets the identifier to that asset's display ID. -/
theorem dataSourceAssetReadCardinality :
    ((dataSourceAssetRead "X" 0 "" false
        (fun _ => .resp ⟨200, "200 OK", .ok ([] : List Asset)⟩)).1 =
      .error "No assets found matching the search criteria") ∧
    (∀ (a b : Asset) (rest : List Asset),
      (dataSourceAssetRead "X" 0 "" false
        (fun _ => .resp ⟨200, "200 OK", .ok (a :: b :: rest)⟩)).1 =
      .error "Multiple assets found matching the search criteria. Please refine your search to return a single asset") ∧
    (∀ (a : Asset),
      dataSourceAssetRead "X" 0 "" false (fun _ => .resp ⟨200, "200 OK", .ok [a]⟩) =
        (.ok (toString a.displayID), ["/assets?search=%22name%3A%27X%27%22"])) := by
  refine ⟨by rfl, ?_, ?_⟩
  · intro a b rest
    rfl
  · intro a
    rfl

/-- C10: the provider registers exactly the three resources
freshservice_asset_type, freshservice_azure_subscription and
freshservice_aws_account and exactly the two data sources freshservice_asset
and freshservice_asset_type; the generic Asset and GCP Project handlers are
not wired into either map. -/
theorem providerRegistration :
    providerResourcesMap.map Prod.fst =
      ["freshservice_asset_type", "freshservice_azure_subscription",
       "freshservice_aws_account"] ∧
    providerResourcesMap.length = 3 ∧
    providerDataSourcesMap.map Prod.fst =
      ["freshservice_asset", "freshservice_asset_type"] ∧
    providerDataSourcesMap.length = 2 ∧
    (providerResourcesMap.map Prod.snd).contains ProviderHandler.resourceAssetH = false ∧
    (providerResourcesMap.map Prod.snd).contains ProviderHandler.resourceGCPProjectH = false ∧
    (providerDataSourcesMap.map Prod.snd).contains ProviderHandler.resourceAssetH = false ∧
    (providerDataSourcesMap.map Prod.snd).contains ProviderHandler.resourceGCPProjectH = false := by
  decide
